import Mathlib

/-!
Verification of the SillyTavern Generation Locks (STGL) extension.

This file shallowly embeds the cascade-resolution engine of the extension
(`index.js`): the lock storage adapter, the priority resolver, the three
item appliers (profile / preset / template), the lock-application pass,
the group-member-drafted overlay, the save paths for locks, and the
preference-saving popup handler.  JavaScript `null`/`undefined` lock
values are both modelled as `Option.none`; lock stores (plain JS objects
keyed by strings) are modelled as association lists whose `List.lookup`
mirrors JS keyed access; the host's Unicode NFC normalization (a built-in
of the host string library, not code of this repository) is modelled as
the identity, so `_normalizeCharacterName` reduces to trimming.
-/

namespace STGL

/-- A lock record `{ profile, preset, template }`; each field is
independently nullable (`none` models both JS `null` and `undefined`). -/
structure LockRecord where
  profile : Option String
  preset : Option String
  template : Option String
deriving DecidableEq

/-- The lockable items. -/
inductive Item where
  | profile
  | preset
  | template
deriving DecidableEq

/-- The setting-source dimensions (`SETTING_SOURCES` in `index.js`). -/
inductive Dimension where
  | character
  | model
  | chat
  | group
  | individual
deriving DecidableEq

/-- Field access `lock[itemName]` of a lock record. -/
def LockRecord.get (r : LockRecord) : Item → Option String
  | Item.profile => r.profile
  | Item.preset => r.preset
  | Item.template => r.template

/-- A host character entry (only the `name` field is read by STGL). -/
structure Character where
  name : String
deriving DecidableEq

/-- A host group entry: its id and the optional `stgl_locks` record
stored directly on the group. -/
structure GroupEntry where
  id : String
  stgl_locks : Option LockRecord
deriving DecidableEq

/-- A stored completion template (only the fields the lock engine reads:
`id` and `name`; the `prompts` object of a stored template is always a
JS object, hence always truthy, so `TemplateOps.validate` reduces to the
`id`/`name` string checks). -/
structure Template where
  id : String
  name : String
deriving DecidableEq

/-- `moduleSettings` preferences.  `priorityOrder` is `none` when the
stored value is not an array (`Array.isArray` fails). -/
structure ModuleSettings where
  preferIndividualCharacterInGroup : Bool
  showNotifications : Bool
  autoApplyOnContextChange : String
  priorityOrder : Option (List String)
deriving DecidableEq

/-- The namespaced extension-settings blob. -/
structure Settings where
  moduleSettings : ModuleSettings
  characterLocks : List (String × LockRecord)
  modelLocks : List (String × LockRecord)
  templates : List (String × Template)
deriving DecidableEq

/-- Host-side storage state visible to the `StorageAdapter`:
the settings blob, the per-chat metadata (`none` when no chat metadata
object exists; `some m` holds the optional `STGL` lock entry `m`),
the group list, and the character list. -/
structure HostState where
  settings : Settings
  chatMetadata : Option (Option LockRecord)
  groups : List GroupEntry
  characters : List Character
deriving DecidableEq

/-- A session context as built by `ChatContext` (`null` string fields are
`none`).  `primaryId` is the identity token used by staleness checks. -/
structure SessionContext where
  isGroupChat : Bool
  characterName : Option String
  groupId : Option String
  modelName : Option String
  chatId : Option String
  primaryId : Option String
deriving DecidableEq

/-- The key handed to `StorageAdapter.getCharacterLock`: a numeric
character index, a character-name string, or `null`/`undefined`. -/
inductive CharKey where
  | idx (n : Nat)
  | name (s : String)
  | invalid
deriving DecidableEq

/-- The host's `String.prototype.trim` built-in, modelled structurally:
drop whitespace from both ends.  (Lean's own `String.trim` is avoided
only because its implementation does not reduce definitionally; this
function computes the same both-ends whitespace strip.) -/
def jsTrim (s : String) : String :=
  String.mk (((s.data.dropWhile Char.isWhitespace).reverse.dropWhile
    Char.isWhitespace).reverse)

/-- `_normalizeCharacterName`: trim, then NFC-normalize (the host NFC
built-in is modelled as the identity). -/
def normalizeCharacterName (s : String) : String :=
  jsTrim s

/-- `StorageAdapter.getCharacterLock`: dual-key lookup.  A numeric key is
looked up as its decimal string; on a miss, if the character at that index
exists and has a truthy name, the normalized name key is tried.  A name
key is looked up only under the normalized name. -/
def getCharacterLock (st : HostState) : CharKey → Option LockRecord
  | CharKey.invalid => none
  | CharKey.idx n =>
    match List.lookup (toString n) st.settings.characterLocks with
    | some lock => some lock
    | none =>
      match st.characters.get? n with
      | some c =>
        if c.name ≠ "" then
          List.lookup (normalizeCharacterName c.name) st.settings.characterLocks
        else none
      | none => none
  | CharKey.name s =>
    List.lookup (normalizeCharacterName s) st.settings.characterLocks

/-- `StorageAdapter.getModelLock` (`!modelName` guards both `null` and the
empty string). -/
def getModelLock (st : HostState) : Option String → Option LockRecord
  | none => none
  | some m => if m = "" then none else List.lookup m st.settings.modelLocks

/-- `StorageAdapter.getChatLock`: `chat_metadata?.[KEY] || null`. -/
def getChatLock (st : HostState) : Option LockRecord :=
  match st.chatMetadata with
  | none => none
  | some entry => entry

/-- `StorageAdapter.getGroupLock`: find the group by id and read its
`stgl_locks`. -/
def getGroupLock (st : HostState) : Option String → Option LockRecord
  | none => none
  | some g =>
    if g = "" then none
    else
      match st.groups.find? (fun grp => grp.id == g) with
      | some grp => grp.stgl_locks
      | none => none

/-- Membership test against the resolver's `validSources` set. -/
def isValidSource (s : String) : Bool :=
  s == "chat" || s == "character" || s == "model"

/-- Map one (already validated) priority-order entry to the concrete
dimension for this context: `character` becomes `group` inside a group
chat; the only other entries the filter lets through are `model` and
`chat`. -/
def sourceToDimension (isGroupChat : Bool) (s : String) : Dimension :=
  if s = "character" then
    (if isGroupChat then Dimension.group else Dimension.character)
  else if s = "model" then Dimension.model
  else Dimension.chat

/-- `PriorityResolver._buildCascade`: filter the stored priority order to
valid sources, fall back to the default `[model, chat, character]` when
nothing valid remains (or the stored value is not an array), and map
entries to concrete dimensions. -/
def _buildCascade (ctx : SessionContext) (ms : ModuleSettings) : List Dimension :=
  let baseOrder :=
    match ms.priorityOrder with
    | some l => l.filter isValidSource
    | none => []
  let order := if baseOrder.isEmpty then ["model", "chat", "character"] else baseOrder
  order.map (sourceToDimension ctx.isGroupChat)

/-- `PriorityResolver._getLockForDimension`. -/
def _getLockForDimension (dim : Dimension) (ctx : SessionContext) (st : HostState) :
    Option LockRecord :=
  match dim with
  | Dimension.character =>
    if ctx.isGroupChat then none
    else
      match ctx.characterName with
      | none => getCharacterLock st CharKey.invalid
      | some nm =>
        if nm = "" then getCharacterLock st (CharKey.name nm)
        else
          match st.characters.findIdx? (fun c => c.name == nm) with
          | some i => getCharacterLock st (CharKey.idx i)
          | none => getCharacterLock st (CharKey.name nm)
  | Dimension.model => getModelLock st ctx.modelName
  | Dimension.chat => getChatLock st
  | Dimension.group => getGroupLock st ctx.groupId
  | Dimension.individual => none

/-- `PriorityResolver._resolveItem`: walk the cascade in order, skipping
the model dimension for the profile item; the first dimension whose lock
record has a non-null value for this item wins. -/
def _resolveItem (item : Item) (ctx : SessionContext) (st : HostState) :
    List Dimension → Option String × Option Dimension
  | [] => (none, none)
  | dim :: rest =>
    if item = Item.profile ∧ dim = Dimension.model then
      _resolveItem item ctx st rest
    else
      match _getLockForDimension dim ctx st with
      | none => _resolveItem item ctx st rest
      | some lock =>
        match lock.get item with
        | some v => (some v, some dim)
        | none => _resolveItem item ctx st rest

/-- Winning source dimensions, one per item. -/
structure ResolvedSources where
  profile : Option Dimension
  preset : Option Dimension
  template : Option Dimension
deriving DecidableEq

/-- The resolver result `{ locks, sources }`. -/
structure ResolvedSet where
  locks : LockRecord
  sources : ResolvedSources
deriving DecidableEq

/-- `PriorityResolver.resolve`: build the cascade once and resolve each
item independently through it. -/
def resolve (ctx : SessionContext) (ms : ModuleSettings) (st : HostState) : ResolvedSet :=
  let cascade := _buildCascade ctx ms
  let p := _resolveItem Item.profile ctx st cascade
  let q := _resolveItem Item.preset ctx st cascade
  let t := _resolveItem Item.template ctx st cascade
  { locks := { profile := p.1, preset := q.1, template := t.1 },
    sources := { profile := p.2, preset := q.2, template := t.2 } }

/-- Winning source of one item in a resolved set. -/
def ResolvedSet.sourceOf (r : ResolvedSet) : Item → Option Dimension
  | Item.profile => r.sources.profile
  | Item.preset => r.sources.preset
  | Item.template => r.sources.template

/-- Winning value of one item in a resolved set. -/
def ResolvedSet.lockOf (r : ResolvedSet) : Item → Option String
  | Item.profile => r.locks.profile
  | Item.preset => r.locks.preset
  | Item.template => r.locks.template

/-- The contribution of a single cascade dimension to one item: `none`
when the dimension is skipped (model for profile), has no lock record, or
the record holds no value for the item; otherwise the value paired with
the dimension. -/
def itemHit (item : Item) (ctx : SessionContext) (st : HostState) (dim : Dimension) :
    Option (String × Dimension) :=
  if item = Item.profile ∧ dim = Dimension.model then none
  else
    match _getLockForDimension dim ctx st with
    | none => none
    | some lock => (lock.get item).map (fun v => (v, dim))

/-- One step of the cascade walk, phrased through `itemHit`. -/
theorem resolveItem_cons (item : Item) (ctx : SessionContext) (st : HostState)
    (dim : Dimension) (rest : List Dimension) :
    _resolveItem item ctx st (dim :: rest) =
      match itemHit item ctx st dim with
      | some p => (some p.1, some p.2)
      | none => _resolveItem item ctx st rest := by
  conv_lhs => unfold _resolveItem
  unfold itemHit
  by_cases hskip : item = Item.profile ∧ dim = Dimension.model
  · rw [if_pos hskip, if_pos hskip]
  · rw [if_neg hskip, if_neg hskip]
    cases hlock : _getLockForDimension dim ctx st with
    | none => rfl
    | some lock =>
      dsimp only
      cases hv : lock.get item with
      | none => rfl
      | some v => rfl

/-- A hit produced by `itemHit` carries its own dimension, and never a
skipped dimension. -/
theorem itemHit_some_spec (item : Item) (ctx : SessionContext) (st : HostState)
    (dim : Dimension) (p : String × Dimension)
    (h : itemHit item ctx st dim = some p) :
    p.2 = dim ∧ ¬(item = Item.profile ∧ dim = Dimension.model) := by
  unfold itemHit at h
  by_cases hskip : item = Item.profile ∧ dim = Dimension.model
  · rw [if_pos hskip] at h
    cases h
  · refine ⟨?_, hskip⟩
    rw [if_neg hskip] at h
    cases hlock : _getLockForDimension dim ctx st with
    | none => simp only [hlock] at h; cases h
    | some lock =>
      simp only [hlock] at h
      cases hv : lock.get item with
      | none => simp [hv] at h
      | some v =>
        rw [hv] at h
        have h2 : (v, dim) = p := by simpa using h
        exact (congrArg Prod.snd h2).symm

/-- `_resolveItem` returns exactly the first cascade dimension
contributing a hit for the item (and `(none, none)` when none does). -/
theorem resolveItem_eq_findSome (item : Item) (ctx : SessionContext) (st : HostState) :
    ∀ cascade : List Dimension,
      _resolveItem item ctx st cascade =
        match cascade.findSome? (itemHit item ctx st) with
        | some hit => (some hit.1, some hit.2)
        | none => (none, none) := by
  intro cascade
  induction cascade with
  | nil => rfl
  | cons dim rest ih =>
    rw [resolveItem_cons, List.findSome?_cons]
    cases hhit : itemHit item ctx st dim with
    | some p => rfl
    | none => exact ih

/-- `_resolveItem` for the profile item never reports the model dimension
as its source. -/
theorem resolveItem_profile_source_ne_model (ctx : SessionContext) (st : HostState) :
    ∀ cascade : List Dimension,
      (_resolveItem Item.profile ctx st cascade).2 ≠ some Dimension.model := by
  intro cascade
  induction cascade with
  | nil => simp [_resolveItem]
  | cons dim rest ih =>
    rw [resolveItem_cons]
    cases hhit : itemHit Item.profile ctx st dim with
    | none => exact ih
    | some p =>
      have hspec := itemHit_some_spec Item.profile ctx st dim p hhit
      have hdim_ne : dim ≠ Dimension.model := fun hd => hspec.2 ⟨rfl, hd⟩
      intro hcontra
      apply hdim_ne
      rw [← hspec.1]
      exact Option.some.inj hcontra

/-- When exactly one cascade dimension contributes a hit for the item,
`_resolveItem` returns that hit, regardless of its position. -/
theorem resolveItem_single_source (item : Item) (ctx : SessionContext) (st : HostState) :
    ∀ (cascade : List Dimension) (dim : Dimension) (v : String),
      dim ∈ cascade →
      itemHit item ctx st dim = some (v, dim) →
      (∀ d ∈ cascade, d ≠ dim → itemHit item ctx st d = none) →
      _resolveItem item ctx st cascade = (some v, some dim) := by
  intro cascade
  induction cascade with
  | nil => intro dim v hmem _ _; cases hmem
  | cons hd rest ih =>
    intro dim v hmem hhit hothers
    rw [resolveItem_cons]
    by_cases hd_eq : hd = dim
    · subst hd_eq
      rw [hhit]
    · rw [hothers hd (List.mem_cons_self hd rest) hd_eq]
      have hmem_rest : dim ∈ rest := by
        cases List.mem_cons.mp hmem with
        | inl h => exact absurd h.symm hd_eq
        | inr h => exact h
      exact ih dim v hmem_rest hhit
        (fun d hd2 hne => hothers d (List.mem_cons_of_mem hd hd2) hne)

/-! ### Item appliers and the live-session state -/

/-- A connection-manager profile entry (id plus display name). -/
structure ConnectionProfile where
  id : String
  name : String
deriving DecidableEq

/-- The host connection-manager extension settings read by
`ProfileLocker.getCurrentProfile`. -/
structure ConnectionManagerState where
  selectedProfile : Option String
  profiles : List ConnectionProfile
deriving DecidableEq

/-- The live session state visible to (and mutated by) the appliers.
`commands` records every slash command handed to the host
(`executeSlashCommandsWithOptions`) — the "underlying switch" for
profiles and presets; `templateOpsApplied` records every successful
`TemplateOps.applyToPromptManager` mutation.  The host-side effects of
those commands on the connection/preset state are outside the embedding:
only their invocation is observable here. -/
structure LiveState where
  connection : ConnectionManagerState
  presetSetting : Option String
  lockerCurrentProfile : Option String
  lockerCurrentPreset : Option String
  lockerCurrentTemplate : Option String
  commands : List String
  templateOpsApplied : List String
deriving DecidableEq

/-- `ProfileLocker.getCurrentProfile`: resolve the selected profile id to
its name (`|| null` turns a missing/empty name into `null`). -/
def getCurrentProfile (cm : ConnectionManagerState) : Option String :=
  match cm.selectedProfile with
  | none => none
  | some pid =>
    if pid = "" then none
    else
      match cm.profiles.find? (fun p => p.id == pid) with
      | some p => if p.name = "" then none else some p.name
      | none => none

/-- `PresetLocker.getCurrentPreset`: `oai_settings?.preset_settings_openai
|| null`. -/
def getCurrentPreset (presetSetting : Option String) : Option String :=
  match presetSetting with
  | none => none
  | some s => if s = "" then none else some s

/-- `TemplateLocker.getCurrentTemplate`: the last applied template id. -/
def getCurrentTemplate (live : LiveState) : Option String :=
  live.lockerCurrentTemplate

/-- `ProfileLocker.applyProfile`.  `none` is an intentional no-op; a
falsy or whitespace-only name is rejected; an already-active name
short-circuits to success; then the staleness check compares the freshly
built context token with the one captured at resolution start; only
after all of that is the `/profile` switch command issued. -/
def applyProfile (profileName : Option String) (originalContextId : Option String)
    (ctxNow : SessionContext) (live : LiveState) : LiveState × Bool :=
  match profileName with
  | none => (live, true)
  | some s =>
    if s = "" then (live, false)
    else
      let trimmedName := jsTrim s
      if trimmedName = "" then (live, false)
      else
        if getCurrentProfile live.connection = some trimmedName then (live, true)
        else if ctxNow.primaryId ≠ originalContextId then (live, false)
        else
          ({ live with
              commands := live.commands ++ ["/profile " ++ trimmedName],
              lockerCurrentProfile := some trimmedName }, true)

/-- `PresetLocker.applyPreset`: same shape as `applyProfile`, issuing the
`/preset` switch command. -/
def applyPreset (presetName : Option String) (originalContextId : Option String)
    (ctxNow : SessionContext) (live : LiveState) : LiveState × Bool :=
  match presetName with
  | none => (live, true)
  | some s =>
    if s = "" then (live, false)
    else
      let trimmedName := jsTrim s
      if trimmedName = "" then (live, false)
      else
        if getCurrentPreset live.presetSetting = some trimmedName then (live, true)
        else if ctxNow.primaryId ≠ originalContextId then (live, false)
        else
          ({ live with
              commands := live.commands ++ ["/preset " ++ trimmedName],
              lockerCurrentPreset := some trimmedName }, true)

/-- `TemplateOps.validate` on a typed stored template: the `prompts`
field of a stored template is always a JS object (truthy), so validation
reduces to the `id` and `name` non-empty-string checks. -/
def validateTemplate (t : Template) : Bool :=
  t.id != "" && t.name != ""

/-- Template lookup inside `TemplateLocker.applyTemplate`: direct id-key
hit first (keeping the requested id for tracking), else a case-insensitive
name-match fallback (tracking the found template's own id). -/
def findTemplate (templates : List (String × Template)) (trimmedId : String) :
    Option (Template × String) :=
  match List.lookup trimmedId templates with
  | some t => some (t, trimmedId)
  | none =>
    match templates.find? (fun kv =>
        kv.2.name == trimmedId || kv.2.name.toLower == trimmedId.toLower) with
    | some kv => some (kv.2, kv.2.id)
    | none => none

/-- `TemplateLocker.applyTemplate`.  Note there is no already-active
short-circuit: a found, valid template is re-applied through
`TemplateOps.applyToPromptManager` even when its id equals the tracked
current template. -/
def applyTemplate (templateId : Option String) (originalContextId : Option String)
    (ctxNow : SessionContext) (templates : List (String × Template))
    (live : LiveState) : LiveState × Bool :=
  match templateId with
  | none => (live, true)
  | some s =>
    if s = "" then (live, false)
    else
      let trimmedId := jsTrim s
      if trimmedId = "" then (live, false)
      else
        match findTemplate templates trimmedId with
        | none => (live, false)
        | some found =>
          if ctxNow.primaryId ≠ originalContextId then (live, false)
          else
            if validateTemplate found.1 then
              ({ live with
                  templateOpsApplied := live.templateOpsApplied ++ [found.1.id],
                  lockerCurrentTemplate := some found.2 }, true)
            else (live, false)

/-- The lock-value normalization inside `SettingsManager._applyLocksToUI`:
`undefined`, `null`, and empty/whitespace-only strings all become "no
lock"; other strings are trimmed. -/
def normLockValue : Option String → Option String
  | none => none
  | some s =>
    let t := jsTrim s
    if t = "" then none else some t

/-- `SettingsManager._applyLocksToUI`: apply in the fixed critical order
profile → preset → template, calling an applier only for a non-null
normalized value, and stopping (reporting failure) at the first failed
step without rolling back earlier ones. -/
def _applyLocksToUI (locks : LockRecord) (originalContextId : Option String)
    (ctxNow : SessionContext) (templates : List (String × Template))
    (live : LiveState) : LiveState × Bool :=
  let nProfile := normLockValue locks.profile
  let nPreset := normLockValue locks.preset
  let nTemplate := normLockValue locks.template
  let step1 :=
    match nProfile with
    | none => (live, true)
    | some p => applyProfile (some p) originalContextId ctxNow live
  if step1.2 = false then (step1.1, false)
  else
    let step2 :=
      match nPreset with
      | none => (step1.1, true)
      | some p => applyPreset (some p) originalContextId ctxNow step1.1
    if step2.2 = false then (step2.1, false)
    else
      match nTemplate with
      | none => (step2.1, true)
      | some t => applyTemplate (some t) originalContextId ctxNow templates step2.1

/-! ### Group-member-drafted overlay -/

/-- The `isValueSet` test of `onGroupMemberDrafted`: a value counts as
set when it is non-null and, for strings, not whitespace-only. -/
def isValueSet : Option String → Bool
  | none => false
  | some s => jsTrim s != ""

/-- The merged lock set computed by the `GROUP_MEMBER_DRAFTED` handler
for the drafted character `chId`: `none` when the handler bails out
(preference disabled, not a group chat, or no individual lock); otherwise
the cascade winners with the individual value substituted exactly for
items whose winning source is the group dimension and whose individual
value is set. -/
def draftedMergedLocks (chId : Nat) (ctx : SessionContext) (st : HostState) :
    Option LockRecord :=
  let prefs := st.settings.moduleSettings
  if prefs.preferIndividualCharacterInGroup = false then none
  else if ctx.isGroupChat = false then none
  else
    match getCharacterLock st (CharKey.idx chId) with
    | none => none
    | some individualLock =>
      let resolved := resolve ctx prefs st
      let merge := fun (item : Item) =>
        if resolved.sourceOf item = some Dimension.group ∧
            isValueSet (individualLock.get item) = true then
          individualLock.get item
        else resolved.locks.get item
      some { profile := merge Item.profile,
             preset := merge Item.preset,
             template := merge Item.template }

/-! ### Saving locks and preferences -/

/-- Which dimensions a save/clear action targets. -/
structure SaveTargets where
  character : Bool
  chat : Bool
  model : Bool
deriving DecidableEq

/-- JS truthiness of an optional string. -/
def truthy : Option String → Bool
  | none => false
  | some s => s != ""

/-- Keyed insertion into an association-list store: the new binding
shadows any previous one on lookup, mirroring JS object key assignment. -/
def setAssoc (k : String) (v : LockRecord) (l : List (String × LockRecord)) :
    List (String × LockRecord) :=
  (k, v) :: l

/-- `StorageAdapter.setCharacterLock`: derive the save key (decimal index
string, or the normalized name) and store. -/
def setCharacterLock (key : CharKey) (locks : LockRecord) (st : HostState) :
    HostState × Bool :=
  match key with
  | CharKey.invalid => (st, false)
  | CharKey.idx n =>
    ({ st with settings :=
        { st.settings with
            characterLocks := setAssoc (toString n) locks st.settings.characterLocks } },
      true)
  | CharKey.name s =>
    ({ st with settings :=
        { st.settings with
            characterLocks :=
              setAssoc (normalizeCharacterName s) locks st.settings.characterLocks } },
      true)

/-- `StorageAdapter.setModelLock`. -/
def setModelLock (modelName : Option String) (locks : LockRecord) (st : HostState) :
    HostState × Bool :=
  match modelName with
  | none => (st, false)
  | some m =>
    if m = "" then (st, false)
    else
      ({ st with settings :=
          { st.settings with modelLocks := setAssoc m locks st.settings.modelLocks } },
        true)

/-- `StorageAdapter.setChatLock`: fails when no chat metadata exists. -/
def setChatLock (locks : LockRecord) (st : HostState) : HostState × Bool :=
  match st.chatMetadata with
  | none => (st, false)
  | some _ => ({ st with chatMetadata := some (some locks) }, true)

/-- Replace the `stgl_locks` of the first group with the given id. -/
def updateFirstGroup : List GroupEntry → String → LockRecord → List GroupEntry
  | [], _, _ => []
  | g :: gs, gid, l =>
    if g.id = gid then { g with stgl_locks := some l } :: gs
    else g :: updateFirstGroup gs gid l

/-- `StorageAdapter.setGroupLock`: find the group, set its `stgl_locks`
and persist; fails when the group is missing. -/
def setGroupLock (gid : String) (locks : LockRecord) (st : HostState) :
    HostState × Bool :=
  if gid = "" then (st, false)
  else if (st.groups.find? (fun g => g.id == gid)).isSome then
    ({ st with groups := updateFirstGroup st.groups gid locks }, true)
  else (st, false)

/-- The character/chat section of `SettingsManager.saveCurrentUILocks`
(group-or-single branch), returning the updated state and the number of
saves counted (the count is incremented regardless of the individual
setter's own success, as in the source). -/
def saveCharacterChatPhase (targets : SaveTargets) (ctx : SessionContext)
    (cur : LockRecord) (st : HostState) : HostState × Nat :=
  if ctx.isGroupChat then
    let r1 :=
      if targets.character && truthy ctx.groupId then
        match ctx.groupId with
        | some gid => ((setGroupLock gid cur st).1, 1)
        | none => (st, 0)
      else (st, 0)
    let r2 :=
      if targets.chat && truthy ctx.groupId then ((setChatLock cur r1.1).1, 1)
      else (r1.1, 0)
    (r2.1, r1.2 + r2.2)
  else
    let r1 :=
      if targets.character && truthy ctx.characterName then
        match ctx.characterName with
        | some nm =>
          let key :=
            match st.characters.findIdx? (fun c => c.name == nm) with
            | some i => CharKey.idx i
            | none => CharKey.name nm
          ((setCharacterLock key cur st).1, 1)
        | none => (st, 0)
      else (st, 0)
    let r2 :=
      if targets.chat then ((setChatLock cur r1.1).1, 1)
      else (r1.1, 0)
    (r2.1, r1.2 + r2.2)

/-- The model section of `SettingsManager.saveCurrentUILocks`: a
model-dimension save always stores `profile: null`. -/
def saveModelPhase (targets : SaveTargets) (ctx : SessionContext)
    (cur : LockRecord) (st : HostState) : HostState × Nat :=
  if targets.model && truthy ctx.modelName then
    let modelLocks : LockRecord :=
      { profile := none, preset := cur.preset, template := cur.template }
    ((setModelLock ctx.modelName modelLocks st).1, 1)
  else (st, 0)

/-- `SettingsManager.saveCurrentUILocks`: character/chat (or group/chat)
section, then the model section; succeeds when at least one save was
counted. -/
def saveCurrentUILocks (targets : SaveTargets) (ctx : SessionContext)
    (cur : LockRecord) (st : HostState) : HostState × Bool :=
  let r1 := saveCharacterChatPhase targets ctx cur st
  let r2 := saveModelPhase targets ctx cur r1.1
  (r2.1, decide (0 < r1.2 + r2.2))

/-- The popup's three priority dropdowns plus the other form controls;
`none` models a control missing from the DOM. -/
structure PopupForm where
  preferIndividualBox : Option Bool
  showNotificationsBox : Option Bool
  sel1 : Option String
  sel2 : Option String
  sel3 : Option String
  autoApplyRadio : Option String
deriving DecidableEq

/-- The popup's `all.includes(v)` filter over `['model','chat','character']`. -/
def popupValidEntry (v : String) : Bool :=
  v == "model" || v == "chat" || v == "character"

/-- `savePreferencesFromPopup`: checkbox preferences are saved first;
then the three priority selects are validated — three valid, pairwise
distinct entries — and a duplicate/invalid sequence aborts with failure
before anything of the priority order (or the auto-apply mode) is
stored. -/
def savePreferencesFromPopup (form : PopupForm) (ms0 : ModuleSettings) :
    ModuleSettings × Bool :=
  let ms1 :=
    match form.preferIndividualBox with
    | some b => { ms0 with preferIndividualCharacterInGroup := b }
    | none => ms0
  let ms2 :=
    match form.showNotificationsBox with
    | some b => { ms1 with showNotifications := b }
    | none => ms1
  match form.sel1, form.sel2, form.sel3 with
  | some a, some b, some c =>
    let seq := [a, b, c].filter popupValidEntry
    if seq.length = 3 ∧ seq.Nodup then
      let ms3 := { ms2 with priorityOrder := some seq }
      let ms4 :=
        match form.autoApplyRadio with
        | some m => { ms3 with autoApplyOnContextChange := m }
        | none => ms3
      (ms4, true)
    else (ms2, false)
  | _, _, _ =>
    let ms4 :=
      match form.autoApplyRadio with
      | some m => { ms2 with autoApplyOnContextChange := m }
      | none => ms2
    (ms4, true)

/-! ### Preservation lemmas for the save path -/

/-- `setGroupLock` only touches the group list. -/
theorem setGroupLock_fst_settings (gid : String) (l : LockRecord) (st : HostState) :
    ((setGroupLock gid l st).1).settings = st.settings := by
  unfold setGroupLock
  split_ifs <;> rfl

/-- `setChatLock` only touches the chat metadata. -/
theorem setChatLock_fst_settings (l : LockRecord) (st : HostState) :
    ((setChatLock l st).1).settings = st.settings := by
  obtain ⟨s, cm, gr, ch⟩ := st
  cases cm <;> rfl

/-- `setCharacterLock` never touches the model-lock store. -/
theorem setCharacterLock_fst_modelLocks (k : CharKey) (l : LockRecord) (st : HostState) :
    ((setCharacterLock k l st).1).settings.modelLocks = st.settings.modelLocks := by
  cases k <;> rfl

/-- The character/chat section of `saveCurrentUILocks` never touches the
model-lock store. -/
theorem saveCharacterChatPhase_modelLocks (targets : SaveTargets) (ctx : SessionContext)
    (cur : LockRecord) (st : HostState) :
    ((saveCharacterChatPhase targets ctx cur st).1).settings.modelLocks =
      st.settings.modelLocks := by
  obtain ⟨tc, tch, tm⟩ := targets
  obtain ⟨g, cn, gid, mn, cid, pid⟩ := ctx
  cases g <;> cases tc <;> cases tch <;> cases gid <;> cases cn <;>
    simp [saveCharacterChatPhase, truthy, setGroupLock_fst_settings,
      setChatLock_fst_settings, setCharacterLock_fst_modelLocks] <;>
    split_ifs <;>
    simp [setGroupLock_fst_settings, setChatLock_fst_settings,
      setCharacterLock_fst_modelLocks]

/-! ### Concrete scenario for independent resolution (C1) -/

def exMs : ModuleSettings :=
  { preferIndividualCharacterInGroup := true, showNotifications := true,
    autoApplyOnContextChange := "ask",
    priorityOrder := some ["model", "chat", "character"] }

def exSt : HostState :=
  { settings :=
      { moduleSettings := exMs,
        characterLocks := [("0", { profile := some "P1", preset := none, template := none })],
        modelLocks := [("GPT", { profile := none, preset := none, template := some "T1" })],
        templates := [] },
    chatMetadata := some (some { profile := none, preset := some "Q1", template := none }),
    groups := [],
    characters := [{ name := "Alice" }] }

def exCtx : SessionContext :=
  { isGroupChat := false, characterName := some "Alice", groupId := none,
    modelName := some "GPT", chatId := some "chat-1", primaryId := some "Alice" }

/-- Claim C1: `resolve` resolves every lockable item independently by
walking the cascade in priority order: for each item it returns the
value and dimension of the first cascade dimension whose stored lock
record has a non-null value for that item (skipped dimensions and
missing records contribute nothing), and `(none, none)` when the cascade
is exhausted; in particular, with Character = {profile P1},
Chat = {preset Q1}, Model = {template T1} and order
[model, chat, character], the profile resolves to P1 from the character
dimension, the preset to Q1 from chat, and the template to T1 from
model. -/
theorem stgl_c1 :
    (∀ (item : Item) (ctx : SessionContext) (st : HostState) (cascade : List Dimension),
        _resolveItem item ctx st cascade =
          match cascade.findSome? (itemHit item ctx st) with
          | some hit => (some hit.1, some hit.2)
          | none => (none, none))
    ∧ resolve exCtx exMs exSt =
        { locks := { profile := some "P1", preset := some "Q1", template := some "T1" },
          sources := { profile := some Dimension.character, preset := some Dimension.chat,
                       template := some Dimension.model } } :=
  ⟨fun item ctx st cascade => resolveItem_eq_findSome item ctx st cascade, by decide⟩

/-- Claim C2: a model-dimension lock record is never the source of the
winning profile — the resolver skips the model dimension for the profile
item in every context — and `saveCurrentUILocks` can only ever write a
model lock whose `profile` field is null: after any save, a model-lock
key either is unchanged or maps to a record with `profile = none`. -/
theorem stgl_c2 :
    (∀ (ctx : SessionContext) (ms : ModuleSettings) (st : HostState),
        (resolve ctx ms st).sourceOf Item.profile ≠ some Dimension.model)
    ∧ (∀ (targets : SaveTargets) (ctx : SessionContext) (cur : LockRecord)
         (st : HostState) (m : String),
        List.lookup m ((saveCurrentUILocks targets ctx cur st).1.settings.modelLocks) =
          List.lookup m st.settings.modelLocks
        ∨ ∃ r : LockRecord,
            List.lookup m ((saveCurrentUILocks targets ctx cur st).1.settings.modelLocks) =
              some r ∧ r.profile = none) := by
  constructor
  · intro ctx ms st
    simp only [resolve, ResolvedSet.sourceOf]
    exact resolveItem_profile_source_ne_model ctx st (_buildCascade ctx ms)
  · intro targets ctx cur st m
    unfold saveCurrentUILocks
    dsimp only
    have h1 := saveCharacterChatPhase_modelLocks targets ctx cur st
    unfold saveModelPhase
    by_cases hb : (targets.model && truthy ctx.modelName) = true
    · rw [if_pos hb]
      dsimp only
      cases hmn : ctx.modelName with
      | none =>
        left
        simp only [setModelLock]
        rw [h1]
      | some mv =>
        simp only [setModelLock]
        by_cases hm0 : mv = ""
        · rw [if_pos hm0]
          left
          rw [h1]
        · rw [if_neg hm0]
          dsimp only [setAssoc]
          by_cases hmk : m = mv
          · right
            refine ⟨{ profile := none, preset := cur.preset, template := cur.template },
              ?_, rfl⟩
            subst hmk
            simp [List.lookup]
          · left
            have hbeq : (m == mv) = false := by simpa using hmk
            simp [List.lookup, hbeq, h1]
    · rw [if_neg hb]
      left
      rw [h1]

/-- Claim C7: for every permutation of {model, chat, character} used as
the stored priority order, when exactly one (unskipped) cascade
dimension contributes a non-null value for an item, `resolve` returns
that value from that dimension, regardless of its position in the
order. -/
theorem stgl_c7 (porder : List String) (ms : ModuleSettings) (ctx : SessionContext)
    (st : HostState) (item : Item) (dim : Dimension) (v : String)
    (hperm : porder.Perm ["model", "chat", "character"])
    (hms : ms.priorityOrder = some porder)
    (hmem : dim ∈ _buildCascade ctx ms)
    (hhit : itemHit item ctx st dim = some (v, dim))
    (hothers : ∀ d ∈ _buildCascade ctx ms, d ≠ dim → itemHit item ctx st d = none) :
    (resolve ctx ms st).lockOf item = some v
    ∧ (resolve ctx ms st).sourceOf item = some dim := by
  have hres := resolveItem_single_source item ctx st (_buildCascade ctx ms) dim v
    hmem hhit hothers
  cases item <;>
    simp only [resolve, ResolvedSet.lockOf, ResolvedSet.sourceOf, hres] <;>
    trivial

def w7ms : ModuleSettings :=
  { preferIndividualCharacterInGroup := true, showNotifications := true,
    autoApplyOnContextChange := "ask",
    priorityOrder := some ["chat", "model", "character"] }

def w7st : HostState :=
  { settings :=
      { moduleSettings := w7ms,
        characterLocks := [("0", { profile := none, preset := some "V", template := none })],
        modelLocks := [], templates := [] },
    chatMetadata := none, groups := [], characters := [{ name := "Ann" }] }

def w7ctx : SessionContext :=
  { isGroupChat := false, characterName := some "Ann", groupId := none,
    modelName := none, chatId := none, primaryId := some "Ann" }

/-- Witness for C7: with order [chat, model, character] and only the
character dimension holding a preset, that preset wins from the last
cascade position. -/
theorem stgl_c7_witness :
    (resolve w7ctx w7ms w7st).lockOf Item.preset = some "V"
    ∧ (resolve w7ctx w7ms w7st).sourceOf Item.preset = some Dimension.character :=
  stgl_c7 ["chat", "model", "character"] w7ms w7ctx w7st Item.preset Dimension.character "V"
    (by decide) rfl (by decide) (by decide) (by decide)

def c10ctx : SessionContext :=
  { isGroupChat := false, characterName := some "Ann", groupId := none,
    modelName := none, chatId := none, primaryId := some "Ann" }

/-- Claim C10: cascade construction is total and coercing: invalid
priority-order entries are silently dropped, duplicate entries are kept
in the cascade, a non-array or effectively-empty stored order falls back
to the default [model, chat, character-or-group], and the cascade is
never empty — a malformed stored priority order can never make `resolve`
fail. -/
theorem stgl_c10 :
    (∀ (ctx : SessionContext) (pi sn : Bool) (aam : String) (l : List String),
        _buildCascade ctx ⟨pi, sn, aam, some l⟩ =
          _buildCascade ctx ⟨pi, sn, aam, some (l.filter isValidSource)⟩)
    ∧ (_buildCascade c10ctx ⟨true, true, "ask", some ["model", "model", "chat"]⟩ =
        [Dimension.model, Dimension.model, Dimension.chat])
    ∧ (∀ (ctx : SessionContext) (pi sn : Bool) (aam : String),
        _buildCascade ctx ⟨pi, sn, aam, none⟩ =
          [Dimension.model, Dimension.chat,
           if ctx.isGroupChat then Dimension.group else Dimension.character])
    ∧ (∀ (ctx : SessionContext) (pi sn : Bool) (aam : String) (l : List String),
        l.filter isValidSource = [] →
        _buildCascade ctx ⟨pi, sn, aam, some l⟩ =
          [Dimension.model, Dimension.chat,
           if ctx.isGroupChat then Dimension.group else Dimension.character])
    ∧ (∀ (ctx : SessionContext) (ms : ModuleSettings), _buildCascade ctx ms ≠ []) := by
  refine ⟨?_, by decide, ?_, ?_, ?_⟩
  · intro ctx pi sn aam l
    have hff : (l.filter isValidSource).filter isValidSource = l.filter isValidSource := by
      induction l with
      | nil => rfl
      | cons a t ih =>
        by_cases h : isValidSource a <;> simp [List.filter_cons, h, ih]
    simp only [_buildCascade, hff]
  · intro ctx pi sn aam
    obtain ⟨g, c1, c2, c3, c4, c5⟩ := ctx
    cases g <;> rfl
  · intro ctx pi sn aam l hfe
    obtain ⟨g, c1, c2, c3, c4, c5⟩ := ctx
    simp only [_buildCascade, hfe]
    cases g <;> rfl
  · intro ctx ms
    unfold _buildCascade
    cases hpo : ms.priorityOrder with
    | none => simp
    | some l =>
      cases hf : l.filter isValidSource with
      | nil => simp [hf]
      | cons x xs => simp [hf]

/-- Witness for C10: an order with no valid entries falls back to the
default cascade. -/
theorem stgl_c10_witness :
    _buildCascade c10ctx ⟨true, true, "ask", some ["bogus", "nonsense"]⟩ =
      [Dimension.model, Dimension.chat,
       if c10ctx.isGroupChat then Dimension.group else Dimension.character] :=
  stgl_c10.2.2.2.1 c10ctx true true "ask" ["bogus", "nonsense"] (by decide)

/-! ### Group overlay (C3) -/

def c3st : HostState :=
  { settings :=
      { moduleSettings :=
          { preferIndividualCharacterInGroup := true, showNotifications := true,
            autoApplyOnContextChange := "ask",
            priorityOrder := some ["model", "chat", "character"] },
        characterLocks := [("0", { profile := none, preset := none, template := some "" })],
        modelLocks := [], templates := [] },
    chatMetadata := none,
    groups := [{ id := "g1",
                 stgl_locks := some { profile := none, preset := none, template := some "TG" } }],
    characters := [] }

def c3ctx : SessionContext :=
  { isGroupChat := true, characterName := none, groupId := some "g1",
    modelName := none, chatId := some "c", primaryId := some "g1" }

/-- Counterexample for C3 as stated: in a group chat where the group
dimension wins the template, the drafted character's individual record
holds the non-null template value `some ""`, yet the merged lock keeps
the group's value instead of the individual's — the handler additionally
requires the individual string value to be non-blank. -/
theorem stgl_c3_counterexample :
    (resolve c3ctx c3st.settings.moduleSettings c3st).sourceOf Item.template =
      some Dimension.group
    ∧ getCharacterLock c3st (CharKey.idx 0) =
        some { profile := none, preset := none, template := some "" }
    ∧ (some "" : Option String) ≠ none
    ∧ draftedMergedLocks 0 c3ctx c3st =
        some { profile := none, preset := none, template := some "TG" } := by decide

/-- Claim C3 (amended): on the group-member-drafted event, whenever the
handler produces a merged lock set, each item's merged value is the
drafted character's individual value exactly when the item's winning
source is the group dimension and the individual value is set (non-null
and, for strings, non-blank); otherwise — in particular for items won by
chat or model — the cascade-resolved value is kept. -/
theorem stgl_c3 (chId : Nat) (ctx : SessionContext) (st : HostState)
    (indiv merged : LockRecord)
    (hindiv : getCharacterLock st (CharKey.idx chId) = some indiv)
    (hmerged : draftedMergedLocks chId ctx st = some merged) :
    ∀ item : Item,
      merged.get item =
        if (resolve ctx st.settings.moduleSettings st).sourceOf item = some Dimension.group
            ∧ isValueSet (indiv.get item) = true
        then indiv.get item
        else (resolve ctx st.settings.moduleSettings st).locks.get item := by
  unfold draftedMergedLocks at hmerged
  by_cases h1 : st.settings.moduleSettings.preferIndividualCharacterInGroup = false
  · rw [if_pos h1] at hmerged
    simp at hmerged
  · rw [if_neg h1] at hmerged
    by_cases h2 : ctx.isGroupChat = false
    · rw [if_pos h2] at hmerged
      simp at hmerged
    · rw [if_neg h2] at hmerged
      simp only [hindiv] at hmerged
      injection hmerged with h3
      intro item
      rw [← h3]
      cases item <;> rfl

def w3st : HostState :=
  { settings :=
      { moduleSettings :=
          { preferIndividualCharacterInGroup := true, showNotifications := true,
            autoApplyOnContextChange := "ask",
            priorityOrder := some ["model", "chat", "character"] },
        characterLocks := [("0", { profile := none, preset := none, template := some "TI" })],
        modelLocks := [], templates := [] },
    chatMetadata := none,
    groups := [{ id := "g1",
                 stgl_locks := some { profile := none, preset := none, template := some "TG" } }],
    characters := [] }

def w3ctx : SessionContext :=
  { isGroupChat := true, characterName := none, groupId := some "g1",
    modelName := none, chatId := some "c", primaryId := some "g1" }

/-- Witness for C3: a group-won template with a set individual value is
replaced by the individual's value. -/
theorem stgl_c3_witness :
    LockRecord.get { profile := none, preset := none, template := some "TI" } Item.template =
      (if (resolve w3ctx w3st.settings.moduleSettings w3st).sourceOf Item.template =
            some Dimension.group
          ∧ isValueSet (LockRecord.get
              { profile := none, preset := none, template := some "TI" } Item.template) = true
       then LockRecord.get
              { profile := none, preset := none, template := some "TI" } Item.template
       else (resolve w3ctx w3st.settings.moduleSettings w3st).locks.get Item.template) :=
  stgl_c3 0 w3ctx w3st
    { profile := none, preset := none, template := some "TI" }
    { profile := none, preset := none, template := some "TI" }
    (by decide) (by decide) Item.template

/-! ### Duplicate priority order rejection (C4) -/

/-- Claim C4: saving the popup form with three priority selects whose
valid entries are not three pairwise-distinct sources reports failure
and leaves both the stored priority order and the auto-apply mode
unchanged. -/
theorem stgl_c4 (form : PopupForm) (ms : ModuleSettings) (a b c : String)
    (h1 : form.sel1 = some a) (h2 : form.sel2 = some b) (h3 : form.sel3 = some c)
    (hbad : ¬ (([a, b, c].filter popupValidEntry).length = 3
                ∧ ([a, b, c].filter popupValidEntry).Nodup)) :
    (savePreferencesFromPopup form ms).2 = false
    ∧ ((savePreferencesFromPopup form ms).1).priorityOrder = ms.priorityOrder
    ∧ ((savePreferencesFromPopup form ms).1).autoApplyOnContextChange =
        ms.autoApplyOnContextChange := by
  unfold savePreferencesFromPopup
  simp only [h1, h2, h3]
  rw [if_neg hbad]
  refine ⟨rfl, ?_, ?_⟩ <;>
    cases hpi : form.preferIndividualBox <;>
    cases hsn : form.showNotificationsBox <;>
    simp [hpi, hsn]

def w4form : PopupForm :=
  { preferIndividualBox := none, showNotificationsBox := none,
    sel1 := some "model", sel2 := some "model", sel3 := some "chat",
    autoApplyRadio := some "always" }

def w4ms : ModuleSettings :=
  { preferIndividualCharacterInGroup := true, showNotifications := true,
    autoApplyOnContextChange := "ask",
    priorityOrder := some ["model", "chat", "character"] }

/-- Witness for C4: the duplicate order [model, model, chat] is rejected
and nothing of the priority order or auto-apply mode is stored. -/
theorem stgl_c4_witness :
    (savePreferencesFromPopup w4form w4ms).2 = false
    ∧ ((savePreferencesFromPopup w4form w4ms).1).priorityOrder = w4ms.priorityOrder
    ∧ ((savePreferencesFromPopup w4form w4ms).1).autoApplyOnContextChange =
        w4ms.autoApplyOnContextChange :=
  stgl_c4 w4form w4ms "model" "model" "chat" rfl rfl rfl (by decide)

/-! ### Applier staleness (C5) -/

def c5live : LiveState :=
  { connection := { selectedProfile := some "pid1", profiles := [{ id := "pid1", name := "P1" }] },
    presetSetting := some "Q1",
    lockerCurrentProfile := none, lockerCurrentPreset := none, lockerCurrentTemplate := none,
    commands := [], templateOpsApplied := [] }

def c5ctx : SessionContext :=
  { isGroupChat := false, characterName := some "B", groupId := none,
    modelName := none, chatId := none, primaryId := some "B" }

/-- Counterexample for C5 as stated: applying the non-null profile value
"P1" with a stale context token (the current token "B" differs from the
captured "A") reports success, because the already-active short-circuit
fires before the staleness check — the claim demands failure for every
non-null value under a stale token. -/
theorem stgl_c5_counterexample :
    c5ctx.primaryId ≠ some "A"
    ∧ getCurrentProfile c5live.connection = some "P1"
    ∧ applyProfile (some "P1") (some "A") c5ctx c5live = (c5live, true) := by decide

/-- Claim C5 (amended): if an applier is called with a non-null value
while the current context token differs from the captured one, and (for
the profile and preset appliers) the value is not already the currently
active one, then the underlying switch is not invoked, the live session
state is left untouched, and the call reports failure; the template
applier aborts with failure under a stale token unconditionally. -/
theorem stgl_c5 :
    (∀ (s : String) (token : Option String) (ctxNow : SessionContext) (live : LiveState),
        ctxNow.primaryId ≠ token →
        getCurrentProfile live.connection ≠ some (jsTrim s) →
        applyProfile (some s) token ctxNow live = (live, false))
    ∧ (∀ (s : String) (token : Option String) (ctxNow : SessionContext) (live : LiveState),
        ctxNow.primaryId ≠ token →
        getCurrentPreset live.presetSetting ≠ some (jsTrim s) →
        applyPreset (some s) token ctxNow live = (live, false))
    ∧ (∀ (s : String) (token : Option String) (ctxNow : SessionContext)
         (templates : List (String × Template)) (live : LiveState),
        ctxNow.primaryId ≠ token →
        applyTemplate (some s) token ctxNow templates live = (live, false)) := by
  refine ⟨?_, ?_, ?_⟩
  · intro s token ctxNow live hstale hcur
    unfold applyProfile
    dsimp only
    by_cases hs : s = ""
    · rw [if_pos hs]
    · rw [if_neg hs]
      by_cases ht : jsTrim s = ""
      · rw [if_pos ht]
      · rw [if_neg ht, if_neg hcur, if_pos hstale]
  · intro s token ctxNow live hstale hcur
    unfold applyPreset
    dsimp only
    by_cases hs : s = ""
    · rw [if_pos hs]
    · rw [if_neg hs]
      by_cases ht : jsTrim s = ""
      · rw [if_pos ht]
      · rw [if_neg ht, if_neg hcur, if_pos hstale]
  · intro s token ctxNow templates live hstale
    unfold applyTemplate
    dsimp only
    by_cases hs : s = ""
    · rw [if_pos hs]
    · rw [if_neg hs]
      by_cases ht : jsTrim s = ""
      · rw [if_pos ht]
      · rw [if_neg ht]
        cases hf : findTemplate templates (jsTrim s) with
        | none => rfl
        | some found =>
          dsimp only
          rw [if_pos hstale]

/-- Witness for C5: with the current token "B" and captured token "A",
applying a not-currently-active profile, preset, or template fails and
leaves the live state untouched. -/
theorem stgl_c5_witness :
    applyProfile (some "P2") (some "A") c5ctx c5live = (c5live, false)
    ∧ applyPreset (some "Q2") (some "A") c5ctx c5live = (c5live, false)
    ∧ applyTemplate (some "T2") (some "A") c5ctx [] c5live = (c5live, false) :=
  ⟨stgl_c5.1 "P2" (some "A") c5ctx c5live (by decide) (by decide),
   stgl_c5.2.1 "Q2" (some "A") c5ctx c5live (by decide) (by decide),
   stgl_c5.2.2 "T2" (some "A") c5ctx [] c5live (by decide)⟩

/-! ### Applier no-op and idempotence (C6) -/

def c6templates : List (String × Template) := [("t1", { id := "t1", name := "Main Template" })]

def c6live : LiveState :=
  { connection := { selectedProfile := none, profiles := [] },
    presetSetting := none,
    lockerCurrentProfile := none, lockerCurrentPreset := none,
    lockerCurrentTemplate := some "t1",
    commands := [], templateOpsApplied := [] }

def c6ctx : SessionContext :=
  { isGroupChat := false, characterName := some "A", groupId := none,
    modelName := none, chatId := none, primaryId := some "A" }

/-- Counterexample for C6 as stated: the template applier has no
already-active short-circuit — applying template id "t1" while "t1" is
already the tracked current template (and the token is fresh) re-invokes
the underlying prompt-manager application. -/
theorem stgl_c6_counterexample :
    getCurrentTemplate c6live = some "t1"
    ∧ (applyTemplate (some "t1") (some "A") c6ctx c6templates c6live).2 = true
    ∧ (applyTemplate (some "t1") (some "A") c6ctx c6templates c6live).1.templateOpsApplied
        = c6live.templateOpsApplied ++ ["t1"] := by decide

/-- Claim C6 (amended): every applier treats a null value as an
immediate no-op success; the profile and preset appliers additionally
short-circuit to success, without invoking the underlying switch or
changing any state, when the (trimmed) value already equals the current
one — the template applier however re-applies even an already-active
template id. -/
theorem stgl_c6 :
    (∀ (token : Option String) (ctxNow : SessionContext) (live : LiveState),
        applyProfile none token ctxNow live = (live, true))
    ∧ (∀ (token : Option String) (ctxNow : SessionContext) (live : LiveState),
        applyPreset none token ctxNow live = (live, true))
    ∧ (∀ (token : Option String) (ctxNow : SessionContext)
         (templates : List (String × Template)) (live : LiveState),
        applyTemplate none token ctxNow templates live = (live, true))
    ∧ (∀ (s : String) (token : Option String) (ctxNow : SessionContext) (live : LiveState),
        jsTrim s ≠ "" →
        getCurrentProfile live.connection = some (jsTrim s) →
        applyProfile (some s) token ctxNow live = (live, true))
    ∧ (∀ (s : String) (token : Option String) (ctxNow : SessionContext) (live : LiveState),
        jsTrim s ≠ "" →
        getCurrentPreset live.presetSetting = some (jsTrim s) →
        applyPreset (some s) token ctxNow live = (live, true)) := by
  refine ⟨fun _ _ _ => rfl, fun _ _ _ => rfl, fun _ _ _ _ => rfl, ?_, ?_⟩
  · intro s token ctxNow live htrim hcur
    unfold applyProfile
    dsimp only
    have hs : s ≠ "" := by
      intro h
      apply htrim
      rw [h]
      decide
    rw [if_neg hs, if_neg htrim, if_pos hcur]
  · intro s token ctxNow live htrim hcur
    unfold applyPreset
    dsimp only
    have hs : s ≠ "" := by
      intro h
      apply htrim
      rw [h]
      decide
    rw [if_neg hs, if_neg htrim, if_pos hcur]

def w6live : LiveState :=
  { connection := { selectedProfile := some "p", profiles := [{ id := "p", name := "Alpha" }] },
    presetSetting := some "Beta",
    lockerCurrentProfile := none, lockerCurrentPreset := none, lockerCurrentTemplate := none,
    commands := [], templateOpsApplied := [] }

def w6ctx : SessionContext :=
  { isGroupChat := false, characterName := some "A", groupId := none,
    modelName := none, chatId := none, primaryId := some "A" }

/-- Witness for C6: null values no-op for all three appliers, and
already-active profile and preset values short-circuit to success. -/
theorem stgl_c6_witness :
    applyProfile none (some "A") w6ctx w6live = (w6live, true)
    ∧ applyPreset none (some "A") w6ctx w6live = (w6live, true)
    ∧ applyTemplate none (some "A") w6ctx [] w6live = (w6live, true)
    ∧ applyProfile (some "Alpha") (some "A") w6ctx w6live = (w6live, true)
    ∧ applyPreset (some "Beta") (some "A") w6ctx w6live = (w6live, true) :=
  ⟨stgl_c6.1 (some "A") w6ctx w6live,
   stgl_c6.2.1 (some "A") w6ctx w6live,
   stgl_c6.2.2.1 (some "A") w6ctx [] w6live,
   stgl_c6.2.2.2.1 "Alpha" (some "A") w6ctx w6live (by decide) (by decide),
   stgl_c6.2.2.2.2 "Beta" (some "A") w6ctx w6live (by decide) (by decide)⟩

/-! ### Dual-key character lookup (C8) -/

/-- Claim C8: character-lock lookup follows the dual-key fallback chain
in one direction only — a numeric key first tries the decimal-index key
and only on a miss (with a named character at that index) falls back to
the normalized-name key, while a name key consults exactly the
normalized-name key and never a numeric one. -/
theorem stgl_c8 :
    (∀ (st : HostState) (n : Nat) (l : LockRecord),
        List.lookup (toString n) st.settings.characterLocks = some l →
        getCharacterLock st (CharKey.idx n) = some l)
    ∧ (∀ (st : HostState) (n : Nat) (c : Character),
        List.lookup (toString n) st.settings.characterLocks = none →
        st.characters.get? n = some c →
        c.name ≠ "" →
        getCharacterLock st (CharKey.idx n) =
          List.lookup (normalizeCharacterName c.name) st.settings.characterLocks)
    ∧ (∀ (st : HostState) (s : String),
        getCharacterLock st (CharKey.name s) =
          List.lookup (normalizeCharacterName s) st.settings.characterLocks) := by
  refine ⟨?_, ?_, ?_⟩
  · intro st n l h
    unfold getCharacterLock
    simp only [h]
  · intro st n c h hc hname
    unfold getCharacterLock
    simp only [h, hc]
    rw [if_pos hname]
  · intro st s
    rfl

def w8st : HostState :=
  { settings :=
      { moduleSettings :=
          { preferIndividualCharacterInGroup := true, showNotifications := true,
            autoApplyOnContextChange := "ask", priorityOrder := none },
        characterLocks := [("0", { profile := some "PX", preset := none, template := none }),
                           ("Zoe", { profile := some "PY", preset := none, template := none })],
        modelLocks := [], templates := [] },
    chatMetadata := none, groups := [],
    characters := [{ name := "Ann" }, { name := "Zoe" }] }

/-- Witness for C8: a numeric-key hit, a numeric-miss falling back to the
name key, and a plain name-key lookup. -/
theorem stgl_c8_witness :
    getCharacterLock w8st (CharKey.idx 0) =
      some { profile := some "PX", preset := none, template := none }
    ∧ getCharacterLock w8st (CharKey.idx 1) =
        List.lookup (normalizeCharacterName "Zoe") w8st.settings.characterLocks
    ∧ getCharacterLock w8st (CharKey.name "Ann") =
        List.lookup (normalizeCharacterName "Ann") w8st.settings.characterLocks :=
  ⟨stgl_c8.1 w8st 0 { profile := some "PX", preset := none, template := none } (by decide),
   stgl_c8.2.1 w8st 1 { name := "Zoe" } (by decide) (by decide) (by decide),
   stgl_c8.2.2 w8st "Ann"⟩

/-! ### Empty-string lock values (C9) -/

def c9ms : ModuleSettings :=
  { preferIndividualCharacterInGroup := true, showNotifications := true,
    autoApplyOnContextChange := "ask",
    priorityOrder := some ["model", "chat", "character"] }

def c9st : HostState :=
  { settings :=
      { moduleSettings := c9ms,
        characterLocks := [("0", { profile := none, preset := none, template := some "T2" })],
        modelLocks := [], templates := [] },
    chatMetadata := some (some { profile := none, preset := none, template := some "" }),
    groups := [],
    characters := [{ name := "Ann" }] }

def c9ctx : SessionContext :=
  { isGroupChat := false, characterName := some "Ann", groupId := none,
    modelName := none, chatId := some "c", primaryId := some "Ann" }

def w9live : LiveState :=
  { connection := { selectedProfile := none, profiles := [] },
    presetSetting := none,
    lockerCurrentProfile := none, lockerCurrentPreset := none, lockerCurrentTemplate := none,
    commands := [], templateOpsApplied := [] }

/-- Claim C9: an empty-string lock value is a set value for the
resolver — here the chat dimension's empty template wins and shadows the
character dimension's non-null template — yet the apply stage normalizes
empty/whitespace strings to null, so the apply pass for such a resolved
set performs no switch at all and succeeds: resolution and application
disagree on empty-string values. -/
theorem stgl_c9 :
    (resolve c9ctx c9ms c9st).locks.template = some ""
    ∧ (resolve c9ctx c9ms c9st).sources.template = some Dimension.chat
    ∧ _getLockForDimension Dimension.character c9ctx c9st =
        some { profile := none, preset := none, template := some "T2" }
    ∧ (∀ s : String, jsTrim s = "" →
        ∀ (token : Option String) (ctxNow : SessionContext)
          (templates : List (String × Template)) (live : LiveState),
          _applyLocksToUI { profile := none, preset := none, template := some s }
            token ctxNow templates live = (live, true)) := by
  refine ⟨by decide, by decide, by decide, ?_⟩
  intro s hs token ctxNow templates live
  unfold _applyLocksToUI
  simp [normLockValue, hs]

/-- Witness for C9: applying a resolved set whose only value is a
whitespace-only template leaves any live state untouched and reports
success. -/
theorem stgl_c9_witness :
    _applyLocksToUI { profile := none, preset := none, template := some " " }
      (some "Ann") c9ctx [] w9live = (w9live, true) :=
  stgl_c9.2.2.2 " " (by decide) (some "Ann") c9ctx [] w9live

end STGL
